import Mathlib

/-!
Verification of the GPIO command dispatcher in
`src/Psychtoolbox/PsychContributed/RPiGPIO_pig.c`.

The C file is a thin MEX shim that dispatches six GPIO commands to the
pigpio backend. We embed `mexFunction` as a pure Lean function over an
abstract backend environment `Env` (which supplies the return values of
every pigpio call the dispatcher makes). A call produces:
  * a `MexResult` — normal return (with an optional scalar output in
    `plhs[0]`), a fatal `mexErrMsgTxt` abort carrying the message, or
    `hang` when the busy-wait loop `while (isrDone == -1000);` can never
    terminate;
  * an event trace `List Ev` recording, in order, every backend call made
    plus the two internal steps of the edge-wait algorithm (resetting the
    shared signal `isrDone` to its sentinel `-1000`, and the busy-poll
    observing a non-sentinel value);
  * the value of the process-wide `firstTime` flag after the call.

All scalar inputs go through `(int) mxGetScalar`, so the argument vector
`prhs` is modelled as `List Int`; `nrhs` is its length.
-/

namespace RPiGpio

/-- pigpio constant `PI_INPUT`. -/
def PI_INPUT : Int := 0

/-- pigpio constant `PI_OUTPUT`. -/
def PI_OUTPUT : Int := 1

/-- pigpio constant `PI_PUD_OFF`. -/
def PI_PUD_OFF : Int := 0

/-- pigpio constant `PI_PUD_DOWN`. -/
def PI_PUD_DOWN : Int := 1

/-- pigpio constant `PI_PUD_UP`. -/
def PI_PUD_UP : Int := 2

/-- pigpio constant `EITHER_EDGE`. -/
def EITHER_EDGE : Int := 2

/-- One call into the pigpio backend, with the arguments the dispatcher
passes. `gpioSetISRFunc` records whether a callback function pointer was
supplied (`true`, registering) or `NULL` (`false`, unregistering). -/
inductive GpioCall where
  | initialise
  | hardwareRevision
  | gpioRead (pin : Int)
  | gpioWrite (pin level : Int)
  | gpioGetPWMrange (pin : Int)
  | gpioSetPWMrange (pin range : Int)
  | gpioPWM (pin duty : Int)
  | gpioSetMode (pin mode : Int)
  | gpioSetPullUpDown (pin pud : Int)
  | gpioSetISRFunc (pin edge timeout : Int) (withCallback : Bool)
  | gpioTerminate
  deriving DecidableEq, Repr

/-- An event in a dispatcher run: a backend call, the reset of the shared
signal variable `isrDone` to its sentinel `-1000`, or the exit of the
busy-poll loop having observed `isrDone = v`. -/
inductive Ev where
  | call (c : GpioCall)
  | signalReset
  | pollExit (v : Int)
  deriving DecidableEq, Repr

/-- The backend calls of an event trace, in order. -/
def backendCalls (evs : List Ev) : List GpioCall :=
  evs.filterMap fun e =>
    match e with
    | .call c => some c
    | _ => none

/-- Abstract pigpio backend: the return values the dispatcher can observe.
`isrSignal` is the `level` argument with which the registered
`isrCallback` eventually fires (pigpio reports `2` = `PI_TIMEOUT` for a
watchdog timeout, `0`/`1` for a falling/rising edge); it is only
meaningful when registration succeeded. -/
structure Env where
  initResult : Int
  revision : Nat
  readResult : Int → Int
  pwmRangeOf : Int → Int
  pwmResult : Int → Int → Int
  isrSetupResult : Int → Int → Int
  isrSignal : Int

/-- Result of one `mexFunction` call: normal return with the optional
scalar stored in `plhs[0]`, a fatal `mexErrMsgTxt` abort, or
non-termination of the busy-wait loop. -/
inductive MexResult where
  | ok (out : Option Int)
  | fatal (msg : String)
  | hang
  deriving DecidableEq, Repr

/-- Observable outcome of one `mexFunction` call. -/
structure Outcome where
  res : MexResult
  events : List Ev
  firstTime : Bool
  deriving DecidableEq, Repr

/-- The interrupt-service callback `isrCallback`: it stores its `level`
argument into the shared signal variable `isrDone` (the returned value),
ignoring the gpio number and tick. -/
def isrCallback (_gpio level : Int) (_tick : Nat) : Int := level

/-- The exit hook `exitfunc`: calls `gpioTerminate` and resets
`firstTime` to `1`. -/
def exitfunc : List Ev × Bool := ([Ev.call GpioCall.gpioTerminate], true)

/-- The `switch (cmd)` body of `mexFunction`: given the backend, the
command code, the pin number and the third scalar (`-1000` when omitted),
it yields the result and the events of the dispatch. -/
def dispatch (env : Env) (cmd pin arg : Int) : MexResult × List Ev :=
  if cmd = 0 then
    (MexResult.ok (some (env.readResult pin)), [Ev.call (GpioCall.gpioRead pin)])
  else if cmd = 1 then
    if arg < 0 then
      (MexResult.fatal "New logic level of output pin missing for output pin write.", [])
    else
      (MexResult.ok none, [Ev.call (GpioCall.gpioWrite pin arg)])
  else if cmd = 2 then
    if arg < 0 then
      (MexResult.fatal "New pwm level of output pin missing for output pin pulse-width modulation.", [])
    else if arg > 1024 then
      (MexResult.fatal "Invalid pwm level specified. Must be in range 0 - 1024.", [])
    else
      let rangeEvs : List Ev :=
        if env.pwmRangeOf pin ≠ 1024 then
          [Ev.call (GpioCall.gpioGetPWMrange pin), Ev.call (GpioCall.gpioSetPWMrange pin 1024)]
        else
          [Ev.call (GpioCall.gpioGetPWMrange pin)]
      let evs := rangeEvs ++ [Ev.call (GpioCall.gpioPWM pin arg)]
      if env.pwmResult pin arg < 0 then
        (MexResult.fatal "Failed to set new pwm level of output pin for output pin pulse-width modulation.", evs)
      else
        (MexResult.ok none, evs)
  else if cmd = 3 then
    if arg < 0 then
      (MexResult.fatal "New opmode for pin missing for pin mode configuration.", [])
    else
      (MexResult.ok none, [Ev.call (GpioCall.gpioSetMode pin (if arg ≠ 0 then PI_OUTPUT else PI_INPUT))])
  else if cmd = 4 then
    if arg < -1 then
      (MexResult.fatal "New pullup/down for pin missing for pin resistor configuration.", [])
    else
      (MexResult.ok none,
        [Ev.call (GpioCall.gpioSetPullUpDown pin
          (if arg = 0 then PI_PUD_OFF else if arg > 0 then PI_PUD_UP else PI_PUD_DOWN))])
  else if cmd = 5 then
    if arg < -1 then
      (MexResult.fatal "Timeout value in milliseconds missing.", [])
    else
      let evs1 := [Ev.signalReset, Ev.call (GpioCall.gpioSetISRFunc pin EITHER_EDGE arg true)]
      if env.isrSetupResult pin arg ≠ 0 then
        -- gpioSetISRFunc failed: the code stores -1 into plhs[0] but does
        -- NOT return; it falls into `while (isrDone == -1000);` with no
        -- callback registered, so nothing ever leaves the sentinel.
        (MexResult.hang, evs1)
      else
        let sig := isrCallback pin env.isrSignal 0
        if sig = -1000 then
          (MexResult.hang, evs1)
        else
          (MexResult.ok (some (if sig = 2 then 0 else 1)),
            evs1 ++ [Ev.pollExit sig, Ev.call (GpioCall.gpioSetISRFunc pin EITHER_EDGE arg false)])
  else
    (MexResult.fatal "Unknown command code provided!", [])

/-- The lazy-initialization events of a call: `gpioInitialise` exactly
when the `firstTime` flag is still set. -/
def initEvs (firstTime : Bool) : List Ev :=
  if firstTime then [Ev.call GpioCall.initialise] else []

/-- Shallow embedding of `mexFunction`. Arguments: the backend
environment, the current value of the static `firstTime` flag, `nlhs`,
and the scalar inputs `prhs` (so `nrhs = prhs.length`). -/
def mexFunction (env : Env) (firstTime : Bool) (nlhs : Nat) (prhs : List Int) : Outcome :=
  if firstTime ∧ env.initResult < 0 then
    { res := MexResult.fatal "Failed to initialize GPIO system with pigpio."
      events := initEvs firstTime, firstTime := firstTime }
  else
    match prhs with
    | [] =>
      if nlhs = 1 then
        { res := MexResult.ok (some (env.revision : Int))
          events := initEvs firstTime ++ [Ev.call GpioCall.hardwareRevision], firstTime := false }
      else
        -- nrhs < 2: print usage text and return
        { res := MexResult.ok none, events := initEvs firstTime, firstTime := false }
    | [_] =>
      { res := MexResult.ok none, events := initEvs firstTime, firstTime := false }
    | cmd :: pin :: rest =>
      let d := dispatch env cmd pin (rest.headD (-1000))
      { res := d.1, events := initEvs firstTime ++ d.2, firstTime := false }

/-- The pin's PWM range after executing a list of backend calls, starting
from range `r`: only a successful `gpioSetPWMrange` on that pin changes
it. -/
def pwmRangeAfter (pin : Int) (r : Int) : List GpioCall → Int
  | [] => r
  | c :: cs =>
    match c with
    | GpioCall.gpioSetPWMrange p rng => pwmRangeAfter pin (if p = pin then rng else r) cs
    | _ => pwmRangeAfter pin r cs

/-- A concrete sample backend used by witnesses: initialization succeeds,
revision is a Pi 2B value, reads return high, PWM range starts at 255,
PWM set succeeds, ISR registration succeeds, and a rising edge fires. -/
def envW : Env :=
  { initResult := 0
    revision := 10494082
    readResult := fun _ => 1
    pwmRangeOf := fun _ => 255
    pwmResult := fun _ _ => 0
    isrSetupResult := fun _ _ => 0
    isrSignal := 1 }

/-- A backend on which `gpioSetISRFunc` fails with `PI_BAD_GPIO = -3`. -/
def envSetupFail : Env :=
  { initResult := 0
    revision := 10494082
    readResult := fun _ => 1
    pwmRangeOf := fun _ => 255
    pwmResult := fun _ _ => 0
    isrSetupResult := fun _ _ => -3
    isrSignal := 2 }

set_option maxHeartbeats 1000000 in
/-- No branch of the command dispatch ever calls `gpioInitialise`. -/
theorem dispatch_no_initialise (env : Env) (c p a : Int) :
    GpioCall.initialise ∉ backendCalls (dispatch env c p a).2 := by
  unfold dispatch
  split_ifs <;> simp [backendCalls] <;> split_ifs <;> simp

/-- Events of a call split into the lazy-init prefix and a tail that
never calls `gpioInitialise`. -/
theorem mexFunction_events_split (env : Env) (ft : Bool) (nlhs : Nat) (prhs : List Int) :
    ∃ tail, (mexFunction env ft nlhs prhs).events = initEvs ft ++ tail ∧
      GpioCall.initialise ∉ backendCalls tail := by
  unfold mexFunction
  by_cases hinit : ft = true ∧ env.initResult < 0
  · rw [if_pos hinit]
    exact ⟨[], by simp, by simp [backendCalls]⟩
  · rw [if_neg hinit]
    rcases prhs with _ | ⟨c, _ | ⟨p, rest⟩⟩
    · by_cases h1 : nlhs = 1
      · rw [if_pos h1]
        exact ⟨[Ev.call GpioCall.hardwareRevision], rfl, by simp [backendCalls]⟩
      · rw [if_neg h1]
        exact ⟨[], by simp, by simp [backendCalls]⟩
    · exact ⟨[], by simp, by simp [backendCalls]⟩
    · exact ⟨(dispatch env c p (rest.headD (-1000))).2, rfl, dispatch_no_initialise env c p _⟩

/-- Whenever initialization does not abort, the `firstTime` flag is
cleared after the call. -/
theorem mexFunction_firstTime_false (env : Env) (ft : Bool) (nlhs : Nat) (prhs : List Int)
    (h : ¬ (ft = true ∧ env.initResult < 0)) :
    (mexFunction env ft nlhs prhs).firstTime = false := by
  unfold mexFunction
  rw [if_neg h]
  rcases prhs with _ | ⟨c, _ | ⟨p, rest⟩⟩
  · by_cases h1 : nlhs = 1
    · rw [if_pos h1]
    · rw [if_neg h1]
  · rfl
  · rfl

/-- With at least two inputs and no init abort, the result is that of
the command dispatch. -/
theorem mexFunction_res_cons (env : Env) (ft : Bool) (nlhs : Nat) (c p : Int)
    (rest : List Int) (h : ¬ (ft = true ∧ env.initResult < 0)) :
    (mexFunction env ft nlhs (c :: p :: rest)).res =
      (dispatch env c p (rest.headD (-1000))).1 := by
  unfold mexFunction
  rw [if_neg h]

set_option maxHeartbeats 1000000 in
/-- The dispatch aborts with `mexErrMsgTxt` exactly when the argument is
below the command's missing-argument threshold, the PWM duty is out of
range, the backend PWM-set call fails, or the command code is unknown. -/
theorem dispatch_fatal_iff (env : Env) (c p a : Int) :
    (∃ msg, (dispatch env c p a).1 = MexResult.fatal msg) ↔
      (((c = 1 ∨ c = 2 ∨ c = 3) ∧ a < 0) ∨
        ((c = 4 ∨ c = 5) ∧ a < -1) ∨
        (c = 2 ∧ 0 ≤ a ∧ 1024 < a) ∨
        (c = 2 ∧ 0 ≤ a ∧ a ≤ 1024 ∧ env.pwmResult p a < 0) ∨
        ¬ (c = 0 ∨ c = 1 ∨ c = 2 ∨ c = 3 ∨ c = 4 ∨ c = 5)) := by
  unfold dispatch
  split_ifs <;> (try simp_all) <;> (try split_ifs) <;> (try simp_all)

/-- C1: the claim says a command-5 call returns scalar -1 when callback
setup failed, 0 on timeout, 1 on edge. On a backend where `gpioSetISRFunc`
fails (here with `PI_BAD_GPIO = -3`), the code stores -1 into the output
but does not return: it falls into the busy-wait on the sentinel with no
callback registered, so the call hangs and -1 is never returned (and
would be overwritten by 0 or 1 if the loop ever exited). This contradicts
the code's own usage text, which documents result -1 = error. -/
theorem C1_setup_failure_hangs :
    (mexFunction envSetupFail false 1 [5, 4, 100]).res = MexResult.hang ∧
    (mexFunction envSetupFail false 1 [5, 4, 100]).res ≠ MexResult.ok (some (-1)) := by
  constructor <;> decide

/-- C2: for every command-5 invocation (any pin, any timeout ≥ -1), given
that the backend registers the callback successfully and the callback
eventually fires with a non-sentinel level, the events are exactly, in
order: reset the shared signal to the sentinel, register an either-edge
callback on the pin with the given timeout, exit the busy-poll with the
signalled level, unregister the callback; and the result is the mapped
code (0 for the timeout level 2, else 1). -/
theorem C2_edge_wait_steps (env : Env) (p a : Int) (ha : -1 ≤ a)
    (hsetup : env.isrSetupResult p a = 0) (hsig : env.isrSignal ≠ -1000) :
    (mexFunction env false 1 [5, p, a]).events =
      [Ev.signalReset, Ev.call (GpioCall.gpioSetISRFunc p EITHER_EDGE a true),
        Ev.pollExit env.isrSignal, Ev.call (GpioCall.gpioSetISRFunc p EITHER_EDGE a false)] ∧
    (mexFunction env false 1 [5, p, a]).res =
      MexResult.ok (some (if env.isrSignal = 2 then 0 else 1)) := by
  have h5 : ¬ (a < -1) := by omega
  simp [mexFunction, dispatch, initEvs, isrCallback, h5, hsetup, hsig]

/-- Witness for C2 at pin 4, timeout 100 ms, on a backend where setup
succeeds and a rising edge (level 1) fires. -/
theorem C2_edge_wait_steps_witness :
    (mexFunction envW false 1 [5, 4, 100]).events =
      [Ev.signalReset, Ev.call (GpioCall.gpioSetISRFunc 4 EITHER_EDGE 100 true),
        Ev.pollExit 1, Ev.call (GpioCall.gpioSetISRFunc 4 EITHER_EDGE 100 false)] ∧
    (mexFunction envW false 1 [5, 4, 100]).res = MexResult.ok (some 1) := by
  have h := C2_edge_wait_steps envW 4 100 (by decide) (by decide) (by decide)
  simpa [envW] using h

/-- C3: with the subsystem already initialized, a command-2 duty argument
above 1024 aborts with the out-of-range error before any backend call,
while every duty in [0, 1024] passes validation and the backend
duty-cycle call `gpioPWM(pin, arg)` is made. -/
theorem C3_pwm_duty_validation (env : Env) (p a : Int) :
    (1024 < a →
      (mexFunction env false 1 [2, p, a]).res =
        MexResult.fatal "Invalid pwm level specified. Must be in range 0 - 1024." ∧
      backendCalls (mexFunction env false 1 [2, p, a]).events = []) ∧
    (0 ≤ a → a ≤ 1024 →
      GpioCall.gpioPWM p a ∈ backendCalls (mexFunction env false 1 [2, p, a]).events) := by
  constructor
  · intro h
    have h1 : ¬ (a < 0) := by omega
    simp [mexFunction, dispatch, initEvs, backendCalls, h1, h]
  · intro h0 h1
    have hn : ¬ (a < 0) := by omega
    have hn2 : ¬ (a > 1024) := by omega
    by_cases hr : env.pwmRangeOf p = 1024 <;>
      by_cases hp : env.pwmResult p a < 0 <;>
        simp [mexFunction, dispatch, initEvs, backendCalls, hn, hn2, hr, hp]

/-- Witness for C3: duty 1025 is rejected with no backend call; duty 512
reaches the `gpioPWM` call. -/
theorem C3_pwm_duty_validation_witness :
    ((mexFunction envW false 1 [2, 7, 1025]).res =
        MexResult.fatal "Invalid pwm level specified. Must be in range 0 - 1024." ∧
      backendCalls (mexFunction envW false 1 [2, 7, 1025]).events = []) ∧
    GpioCall.gpioPWM 7 512 ∈ backendCalls (mexFunction envW false 1 [2, 7, 512]).events :=
  ⟨(C3_pwm_duty_validation envW 7 1025).1 (by decide),
    (C3_pwm_duty_validation envW 7 512).2 (by decide) (by decide)⟩

/-- C5: with the subsystem already initialized, a command code outside
{0,1,2,3,4,5} supplied with at least two arguments aborts with the
unknown-command error and makes no backend call in the dispatch. -/
theorem C5_unknown_command (env : Env) (c p : Int) (rest : List Int) (nlhs : Nat)
    (h0 : c ≠ 0) (h1 : c ≠ 1) (h2 : c ≠ 2) (h3 : c ≠ 3) (h4 : c ≠ 4) (h5 : c ≠ 5) :
    (mexFunction env false nlhs (c :: p :: rest)).res =
      MexResult.fatal "Unknown command code provided!" ∧
    backendCalls (mexFunction env false nlhs (c :: p :: rest)).events = [] := by
  simp [mexFunction, dispatch, initEvs, backendCalls, h0, h1, h2, h3, h4, h5]

/-- Witness for C5 at command code 99. -/
theorem C5_unknown_command_witness :
    (mexFunction envW false 1 [99, 4, 1]).res =
      MexResult.fatal "Unknown command code provided!" ∧
    backendCalls (mexFunction envW false 1 [99, 4, 1]).events = [] :=
  C5_unknown_command envW 99 4 [1] 1 (by decide) (by decide) (by decide)
    (by decide) (by decide) (by decide)

/-- C6: initialization happens at most once per process. On a call with
`firstTime = true` and successful setup, the flag ends up cleared and
`gpioInitialise` is among the backend calls; if setup fails the flag is
left set; on any call with the flag already cleared no `gpioInitialise`
call is made; and the exit hook calls `gpioTerminate` and resets the
flag. -/
theorem C6_init_once (env : Env) (nlhs : Nat) (prhs : List Int) :
    (0 ≤ env.initResult →
      (mexFunction env true nlhs prhs).firstTime = false ∧
      GpioCall.initialise ∈ backendCalls (mexFunction env true nlhs prhs).events) ∧
    (env.initResult < 0 → (mexFunction env true nlhs prhs).firstTime = true) ∧
    GpioCall.initialise ∉ backendCalls (mexFunction env false nlhs prhs).events ∧
    exitfunc = ([Ev.call GpioCall.gpioTerminate], true) := by
  refine ⟨?_, ?_, ?_, rfl⟩
  · intro h
    have hn : ¬ ((true : Bool) = true ∧ env.initResult < 0) := by
      rintro ⟨-, hlt⟩; omega
    refine ⟨mexFunction_firstTime_false env true nlhs prhs hn, ?_⟩
    obtain ⟨tail, hev, -⟩ := mexFunction_events_split env true nlhs prhs
    rw [hev]
    simp [backendCalls, initEvs]
  · intro h
    unfold mexFunction
    rw [if_pos ⟨rfl, h⟩]
  · obtain ⟨tail, hev, htail⟩ := mexFunction_events_split env false nlhs prhs
    rw [hev]
    simpa [backendCalls, initEvs] using htail

/-- Witness for C6: a first call with successful setup clears the flag
and initializes; a later call does not initialize again. -/
theorem C6_init_once_witness :
    (mexFunction envW true 1 [0, 7]).firstTime = false ∧
    GpioCall.initialise ∈ backendCalls (mexFunction envW true 1 [0, 7]).events ∧
    GpioCall.initialise ∉ backendCalls (mexFunction envW false 1 [0, 7]).events := by
  have h := C6_init_once envW 1 [0, 7]
  exact ⟨(h.1 (by decide)).1, (h.1 (by decide)).2, h.2.2.1⟩

/-- C7: with the subsystem already initialized, a command-4 call with
pull-mode argument in {-1, 0, 1} makes exactly one backend call,
`gpioSetPullUpDown` mapping -1 to pull-down, 0 to no resistor, 1 to
pull-up, and returns no scalar; omitting the argument aborts with the
missing-argument error. -/
theorem C7_pull_resistor (env : Env) (p a : Int) (nlhs : Nat)
    (ha : a = -1 ∨ a = 0 ∨ a = 1) :
    (mexFunction env false nlhs [4, p, a]).res = MexResult.ok none ∧
    backendCalls (mexFunction env false nlhs [4, p, a]).events =
      [GpioCall.gpioSetPullUpDown p
        (if a = -1 then PI_PUD_DOWN else if a = 0 then PI_PUD_OFF else PI_PUD_UP)] ∧
    (mexFunction env false nlhs [4, p]).res =
      MexResult.fatal "New pullup/down for pin missing for pin resistor configuration." := by
  rcases ha with h | h | h <;> subst h <;>
    simp [mexFunction, dispatch, initEvs, backendCalls]

/-- Witness for C7 at pin 7 with pull-mode -1 (pull-down). -/
theorem C7_pull_resistor_witness :
    (mexFunction envW false 1 [4, 7, -1]).res = MexResult.ok none ∧
    backendCalls (mexFunction envW false 1 [4, 7, -1]).events =
      [GpioCall.gpioSetPullUpDown 7 PI_PUD_DOWN] ∧
    (mexFunction envW false 1 [4, 7]).res =
      MexResult.fatal "New pullup/down for pin missing for pin resistor configuration." := by
  have h := C7_pull_resistor envW 7 (-1) 1 (Or.inl rfl)
  simpa using h

/-- C8: a call with zero input arguments and one expected output, when
initialization does not fail, returns the board revision as a single
non-negative scalar and performs no backend operation besides the lazy
`gpioInitialise` (on a first call) and the revision query itself. -/
theorem C8_revision (env : Env) (ft : Bool) (h : ft = true → 0 ≤ env.initResult) :
    (mexFunction env ft 1 []).res = MexResult.ok (some (env.revision : Int)) ∧
    (0 : Int) ≤ (env.revision : Int) ∧
    backendCalls (mexFunction env ft 1 []).events =
      (if ft then [GpioCall.initialise] else []) ++ [GpioCall.hardwareRevision] := by
  cases ft
  · simp [mexFunction, initEvs, backendCalls]
  · have h0 := h rfl
    have hn : ¬ (env.initResult < 0) := by omega
    simp [mexFunction, initEvs, backendCalls, hn]

/-- Witness for C8 on a first call with successful setup. -/
theorem C8_revision_witness :
    (mexFunction envW true 1 []).res = MexResult.ok (some 10494082) ∧
    backendCalls (mexFunction envW true 1 []).events =
      [GpioCall.initialise, GpioCall.hardwareRevision] := by
  have h := C8_revision envW true (by decide)
  exact ⟨by simpa [envW] using h.1, by simpa [envW] using h.2.2⟩

/-- C9: for commands 1, 2 and 3 a negative third argument is
indistinguishable from an omitted one (omission is encoded as the
sentinel -1000 and validation only checks negativity): with the
subsystem initialized, the whole outcome of the call with a negative
argument equals that of the call without it; in particular command 1
with level -1 aborts with the missing-argument error. -/
theorem C9_negative_arg_is_missing (env : Env) (c p a : Int) (nlhs : Nat)
    (hc : c = 1 ∨ c = 2 ∨ c = 3) (ha : a < 0) :
    mexFunction env false nlhs [c, p, a] = mexFunction env false nlhs [c, p] ∧
    (mexFunction env false nlhs [1, p, -1]).res =
      MexResult.fatal "New logic level of output pin missing for output pin write." := by
  constructor
  · rcases hc with h | h | h <;> subst h <;> simp [mexFunction, dispatch, ha]
  · simp [mexFunction, dispatch]

/-- Witness for C9: command 1 at pin 7 with level -1 behaves exactly like
the two-argument call and aborts with the missing-level error. -/
theorem C9_negative_arg_is_missing_witness :
    mexFunction envW false 1 [1, 7, -1] = mexFunction envW false 1 [1, 7] ∧
    (mexFunction envW false 1 [1, 7, -1]).res =
      MexResult.fatal "New logic level of output pin missing for output pin write." :=
  ⟨(C9_negative_arg_is_missing envW 1 7 (-1) 1 (Or.inl rfl) (by decide)).1,
    (C9_negative_arg_is_missing envW 1 7 (-1) 1 (Or.inl rfl) (by decide)).2⟩

/-- C10: every command-2 call that passes validation queries the pin's
PWM range first, sets it to 1024 exactly when it differs, and only then
issues the duty-cycle call — so the range state equals 1024 at the
moment `gpioPWM` is made. -/
theorem C10_pwm_range_is_1024 (env : Env) (p a : Int) (h0 : 0 ≤ a) (h1 : a ≤ 1024) :
    ∃ pre, backendCalls (mexFunction env false 1 [2, p, a]).events =
        pre ++ [GpioCall.gpioPWM p a] ∧
      pwmRangeAfter p (env.pwmRangeOf p) pre = 1024 ∧
      GpioCall.gpioGetPWMrange p ∈ pre ∧
      (env.pwmRangeOf p ≠ 1024 → GpioCall.gpioSetPWMrange p 1024 ∈ pre) ∧
      (env.pwmRangeOf p = 1024 → pre = [GpioCall.gpioGetPWMrange p]) := by
  have hn : ¬ (a < 0) := by omega
  have hn2 : ¬ (a > 1024) := by omega
  by_cases hr : env.pwmRangeOf p = 1024
  · refine ⟨[GpioCall.gpioGetPWMrange p], ?_⟩
    by_cases hp : env.pwmResult p a < 0 <;>
      simp [mexFunction, dispatch, initEvs, backendCalls, pwmRangeAfter, hn, hn2, hr, hp]
  · refine ⟨[GpioCall.gpioGetPWMrange p, GpioCall.gpioSetPWMrange p 1024], ?_⟩
    by_cases hp : env.pwmResult p a < 0 <;>
      simp [mexFunction, dispatch, initEvs, backendCalls, pwmRangeAfter, hn, hn2, hr, hp]

/-- Witness for C10 at pin 18, duty 512, on a backend whose current PWM
range is 255 (so the range must be set to 1024 before the duty call). -/
theorem C10_pwm_range_is_1024_witness :
    ∃ pre, backendCalls (mexFunction envW false 1 [2, 18, 512]).events =
        pre ++ [GpioCall.gpioPWM 18 512] ∧
      pwmRangeAfter 18 (envW.pwmRangeOf 18) pre = 1024 ∧
      GpioCall.gpioGetPWMrange 18 ∈ pre ∧
      (envW.pwmRangeOf 18 ≠ 1024 → GpioCall.gpioSetPWMrange 18 1024 ∈ pre) ∧
      (envW.pwmRangeOf 18 = 1024 → pre = [GpioCall.gpioGetPWMrange 18]) :=
  C10_pwm_range_is_1024 envW 18 512 (by decide) (by decide)

/-- C4: a call aborts fatally exactly when initialization fails, the
required third argument is missing (the code checks the negativity
threshold; omission is encoded as the sentinel -1000), the PWM duty is
out of range, the backend PWM-set call reports failure, or the command
code is unknown; moreover backend return codes elsewhere are not
checked — e.g. a pin read returns whatever the backend produced,
unchanged. -/
theorem C4_abort_characterization (env : Env) (ft : Bool) (nlhs : Nat) (prhs : List Int) :
    ((∃ msg, (mexFunction env ft nlhs prhs).res = MexResult.fatal msg) ↔
      ((ft = true ∧ env.initResult < 0) ∨
        (¬ (ft = true ∧ env.initResult < 0) ∧
          ∃ c p rest, prhs = c :: p :: rest ∧
            (((c = 1 ∨ c = 2 ∨ c = 3) ∧ rest.headD (-1000) < 0) ∨
              ((c = 4 ∨ c = 5) ∧ rest.headD (-1000) < -1) ∨
              (c = 2 ∧ 0 ≤ rest.headD (-1000) ∧ 1024 < rest.headD (-1000)) ∨
              (c = 2 ∧ 0 ≤ rest.headD (-1000) ∧ rest.headD (-1000) ≤ 1024 ∧
                env.pwmResult p (rest.headD (-1000)) < 0) ∨
              ¬ (c = 0 ∨ c = 1 ∨ c = 2 ∨ c = 3 ∨ c = 4 ∨ c = 5))))) ∧
    (∀ p rest, ¬ (ft = true ∧ env.initResult < 0) →
      (mexFunction env ft nlhs (0 :: p :: rest)).res =
        MexResult.ok (some (env.readResult p))) := by
  constructor
  · by_cases hinit : ft = true ∧ env.initResult < 0
    · constructor
      · intro _
        exact Or.inl hinit
      · intro _
        refine ⟨"Failed to initialize GPIO system with pigpio.", ?_⟩
        unfold mexFunction
        rw [if_pos hinit]
    · rcases prhs with _ | ⟨c, _ | ⟨p, rest⟩⟩
      · constructor
        · rintro ⟨msg, hmsg⟩
          unfold mexFunction at hmsg
          rw [if_neg hinit] at hmsg
          by_cases h1 : nlhs = 1
          · rw [if_pos h1] at hmsg; exact absurd hmsg (by simp)
          · rw [if_neg h1] at hmsg; exact absurd hmsg (by simp)
        · rintro (h | ⟨-, c, p, rest, heq, -⟩)
          · exact absurd h hinit
          · exact absurd heq (by simp)
      · constructor
        · rintro ⟨msg, hmsg⟩
          unfold mexFunction at hmsg
          rw [if_neg hinit] at hmsg
          exact absurd hmsg (by simp)
        · rintro (h | ⟨-, c', p, rest, heq, -⟩)
          · exact absurd h hinit
          · exact absurd heq (by simp)
      · rw [mexFunction_res_cons env ft nlhs c p rest hinit, dispatch_fatal_iff]
        constructor
        · intro hD
          exact Or.inr ⟨hinit, c, p, rest, rfl, hD⟩
        · rintro (h | ⟨-, c', p', rest', heq, hD⟩)
          · exact absurd h hinit
          · simp only [List.cons.injEq] at heq
            obtain ⟨rfl, rfl, rfl⟩ := heq
            exact hD
  · intro p rest h
    rw [mexFunction_res_cons env ft nlhs 0 p rest h]
    simp [dispatch]

/-- Witness for C4: with the subsystem initialized, a pin read propagates
the backend's value unchanged (here 1). -/
theorem C4_abort_characterization_witness :
    (mexFunction envW false 1 [0, 7]).res = MexResult.ok (some 1) := by
  have h := (C4_abort_characterization envW false 1 [0, 7]).2 7 [] (by simp)
  simpa [envW] using h

end RPiGpio
